import Mathlib

/-!
Shallow embedding of the UDP and ICMPv4 packet support classes of PyTCP
(`ps_udp.py`, `ps_icmpv4.py`).

Byte strings are `List Nat`, each element one byte value.  The `struct`
pack/unpack calls of the source are modelled explicitly; Python operations
that can raise (`struct.unpack` on a slice of the wrong size, attribute
access on an attribute never assigned, list indexing out of range) are
modelled with `Option`, `none` standing for a raised exception.
-/

/-- Modelled from the spec: the `Tracker` class (`tracker.py` is not part of
the excerpt).  Per the spec it is "a small record carrying a direction tag
(`RX`|`TX`), a monotonically assigned id, and an optional back-link to an
originating tracker"; the monotone id plays no role in any claim stated
here, so the model carries the direction tag and the back-link. -/
inductive Tracker where
  | mk (direction : String) (echo_tracker : Option Tracker)


/-- Direction tag of a tracker. -/
def Tracker.direction : Tracker → String
  | .mk d _ => d

/-- Back-link of a tracker to the tracker of the frame it echoes. -/
def Tracker.echo_tracker : Tracker → Option Tracker
  | .mk _ e => e

/-- Python slice `bs[i:j]` for `i ≤ j` (clamped at the ends, as in Python). -/
def pySlice (bs : List Nat) (i j : Nat) : List Nat :=
  (bs.drop i).take (j - i)

/-- `struct.unpack("!H", bs)[0]`: big-endian 16-bit; `struct.error` (here
`none`) unless the buffer is exactly 2 bytes. -/
def unpack16 (bs : List Nat) : Option Nat :=
  match bs with
  | [a, b] => some (256 * a + b)
  | _ => none

/-- `struct.unpack("!L", bs)[0]`: big-endian 32-bit; `struct.error` (here
`none`) unless the buffer is exactly 4 bytes. -/
def unpack32 (bs : List Nat) : Option Nat :=
  match bs with
  | [a, b, c, d] => some (16777216 * a + 65536 * b + 256 * c + d)
  | _ => none

/-- `struct.pack("!B", n)`: one byte.  `struct.pack` raises for `n ≥ 2^8`;
every theorem below uses it only on values in range, where the `%` is the
identity. -/
def packB (n : Nat) : List Nat :=
  [n % 256]

/-- `struct.pack("!H", n)`: big-endian 16-bit.  `struct.pack` raises for
`n ≥ 2^16`; every theorem below uses it only on values in range, where the
`%` is the identity. -/
def pack16 (n : Nat) : List Nat :=
  [n / 256 % 256, n % 256]

/-- `struct.pack("!L", n)`: big-endian 32-bit, same in-range convention. -/
def pack32 (n : Nat) : List Nat :=
  [n / 16777216 % 256, n / 65536 % 256, n / 256 % 256, n % 256]

/-- `struct.unpack(f"! nH", bs)` as used by `compute_cksum`: the big-endian
16-bit words of a byte string (callers check evenness separately, mirroring
the `struct.error` raised on an odd buffer). -/
def wordsOf : List Nat → List Nat
  | a :: b :: rest => (256 * a + b) :: wordsOf rest
  | _ => []

/-- Zero-pad a byte string to an even length, as the checksum routines do. -/
def padTo2 (bs : List Nat) : List Nat :=
  bs ++ (if bs.length % 2 = 1 then [0] else [])

/-- `~((s & 0xFFFF) + (s >> 16)) & 0xFFFF` on a Python (unbounded)
non-negative int: fold the carries back in once, take the one's-complement,
keep 16 bits. -/
def foldOnceCompl (s : Nat) : Nat :=
  65535 - ((s % 65536 + s / 65536) % 65536)

/-- Fold the carries of a 16-bit one's-complement sum until none are left:
the fully reduced one's-complement accumulator of `s`. -/
def onesCompFold (s : Nat) : Nat :=
  if h : s < 65536 then s else onesCompFold (s % 65536 + s / 65536)
termination_by s
decreasing_by
  simp only [not_lt] at h
  omega

/-- The internet checksum of a byte string, carries fully folded: zero-pad
to an even length, sum the 16-bit words, fold until the sum fits 16 bits,
complement.  A byte string containing a correct checksum field sums to the
one's-complement negative zero, making this value `0`. -/
def inetCksumOf (bs : List Nat) : Nat :=
  65535 - onesCompFold (wordsOf (padTo2 bs)).sum

/-- Modelled from the spec: `inet_cksum.compute_cksum` (module `inet_cksum`
is not part of the excerpt); per the spec it is "the standard 16-bit
one's-complement sum over the whole ICMP message with the checksum field
set to zero". -/
def InetCksum.compute_cksum (data : List Nat) : Nat :=
  65535 - onesCompFold (wordsOf (padTo2 data)).sum

/-- `UdpPacket` (`ps_udp.py`).  `ip_pseudo_header` is only assigned on the
parse path, hence the `Option`. -/
structure UdpPacket where
  tracker : Tracker
  ip_pseudo_header : Option (List Nat)
  udp_sport : Nat
  udp_dport : Nat
  udp_len : Nat
  udp_cksum : Nat
  raw_data : List Nat


/-- `UdpPacket.__init__`, parse branch (`parent_packet` given): slice the
header off the parent's `raw_data`, unpack the four header fields, keep the
parent's tracker and pseudo-header, and take the payload as the slice
`raw_packet[8 : udp_len]`. -/
def UdpPacket.parse (parentTracker : Tracker) (parentPseudoHeader : List Nat)
    (raw_packet : List Nat) : Option UdpPacket := do
  let raw_header := raw_packet.take 8
  let udp_len ← unpack16 (pySlice raw_header 4 6)
  let raw_data := pySlice raw_packet 8 udp_len
  let udp_sport ← unpack16 (pySlice raw_header 0 2)
  let udp_dport ← unpack16 (pySlice raw_header 2 4)
  let udp_cksum ← unpack16 (pySlice raw_header 6 8)
  some
    { tracker := parentTracker
      ip_pseudo_header := some parentPseudoHeader
      udp_sport := udp_sport
      udp_dport := udp_dport
      udp_len := udp_len
      udp_cksum := udp_cksum
      raw_data := raw_data }

/-- `UdpPacket.__init__`, build branch (no `parent_packet`): fresh `TX`
tracker back-linked to `echo_tracker`, `udp_len = 8 + len(raw_data)`,
checksum initialised to zero. -/
def UdpPacket.build (udp_sport udp_dport : Nat) (raw_data : List Nat)
    (echo_tracker : Option Tracker) : UdpPacket :=
  { tracker := Tracker.mk "TX" echo_tracker
    ip_pseudo_header := none
    udp_sport := udp_sport
    udp_dport := udp_dport
    udp_len := 8 + raw_data.length
    udp_cksum := 0
    raw_data := raw_data }

/-- `UdpPacket.raw_header`: `struct.pack("! HH HH", sport, dport, len, cksum)`. -/
def UdpPacket.raw_header (p : UdpPacket) : List Nat :=
  pack16 p.udp_sport ++ pack16 p.udp_dport ++ pack16 p.udp_len ++ pack16 p.udp_cksum

/-- `UdpPacket.raw_packet`: header followed by payload. -/
def UdpPacket.raw_packet (p : UdpPacket) : List Nat :=
  p.raw_header ++ p.raw_data

/-- `UdpPacket.compute_cksum`: concatenate pseudo-header, raw packet and a
zero pad byte when the raw packet length is odd; unpack into 16-bit words
(`struct.error`, i.e. `none`, on an odd total); zero list index `9`
(`cksum_data[6 + 3] = 0`, `IndexError`, i.e. `none`, when absent); sum,
fold the carries in once, complement. -/
def UdpPacket.compute_cksum (p : UdpPacket) (ip_pseudo_header : List Nat) :
    Option Nat :=
  let cksum_data :=
    ip_pseudo_header ++ p.raw_packet ++
      (if p.raw_packet.length % 2 = 1 then [0] else [])
  if cksum_data.length % 2 = 1 then none
  else
    let ws := wordsOf cksum_data
    if 9 < ws.length then
      some (foldOnceCompl ((ws.set 9 0).sum))
    else none

/-- `UdpPacket.get_raw_packet`: store the computed checksum into the packet
(the method mutates `self.udp_cksum`), then render; the result pairs the
mutated packet with the rendered bytes. -/
def UdpPacket.get_raw_packet (p : UdpPacket) (ip_pseudo_header : List Nat) :
    Option (UdpPacket × List Nat) := do
  let c ← p.compute_cksum ip_pseudo_header
  let p' := { p with udp_cksum := c }
  some (p', p'.raw_packet)

/-- `Icmp4Packet` (`ps_icmpv4.py`).  The per-type message body attributes
are only assigned on the matching constructor branch; an `Option` field set
to `none` models the attribute never having been assigned, so that reading
it raises (`AttributeError`). -/
structure Icmp4Packet where
  tracker : Tracker
  icmpv4_type : Nat
  icmpv4_code : Nat
  icmpv4_cksum : Nat
  icmpv4_ec_id : Option Nat := none
  icmpv4_ec_seq : Option Nat := none
  icmpv4_ec_raw_data : Option (List Nat) := none
  icmpv4_un_reserved : Option Nat := none
  icmpv4_un_raw_data : Option (List Nat) := none
  unknown_message : Option (List Nat) := none


/-- `Icmp4Packet.__init__`, parse branch: read type, code and checksum from
the first four bytes, then dispatch on the type.  The Destination
Unreachable branch is modelled exactly as written in the source: it feeds
the two-byte slice `raw_packet[4:6]` to `struct.unpack("!L", ...)`, which
demands four bytes. -/
def Icmp4Packet.parse (parentTracker : Tracker) (raw_packet : List Nat) :
    Option Icmp4Packet := do
  let icmpv4_type ← raw_packet[0]?
  let icmpv4_code ← raw_packet[1]?
  let icmpv4_cksum ← unpack16 (pySlice raw_packet 2 4)
  if icmpv4_type = 0 then do
    let ec_id ← unpack16 (pySlice raw_packet 4 6)
    let ec_seq ← unpack16 (pySlice raw_packet 6 8)
    some
      { tracker := parentTracker, icmpv4_type := icmpv4_type
        icmpv4_code := icmpv4_code, icmpv4_cksum := icmpv4_cksum
        icmpv4_ec_id := some ec_id, icmpv4_ec_seq := some ec_seq
        icmpv4_ec_raw_data := some (raw_packet.drop 8) }
  else if icmpv4_type = 3 then do
    let un_reserved ← unpack32 (pySlice raw_packet 4 6)
    some
      { tracker := parentTracker, icmpv4_type := icmpv4_type
        icmpv4_code := icmpv4_code, icmpv4_cksum := icmpv4_cksum
        icmpv4_un_reserved := some un_reserved
        icmpv4_un_raw_data := some (raw_packet.drop 8) }
  else if icmpv4_type = 8 then do
    let ec_id ← unpack16 (pySlice raw_packet 4 6)
    let ec_seq ← unpack16 (pySlice raw_packet 6 8)
    some
      { tracker := parentTracker, icmpv4_type := icmpv4_type
        icmpv4_code := icmpv4_code, icmpv4_cksum := icmpv4_cksum
        icmpv4_ec_id := some ec_id, icmpv4_ec_seq := some ec_seq
        icmpv4_ec_raw_data := some (raw_packet.drop 8) }
  else
    some
      { tracker := parentTracker, icmpv4_type := icmpv4_type
        icmpv4_code := icmpv4_code, icmpv4_cksum := icmpv4_cksum
        unknown_message := some (raw_packet.drop 4) }

/-- `Icmp4Packet.__init__`, build branch: fresh `TX` tracker back-linked to
`echo_tracker`, checksum zero, message body assigned only on the three
recognised (type, code) combinations; in particular the Destination
Unreachable data is truncated to 520 bytes, and no body attribute at all is
assigned outside the three branches. -/
def Icmp4Packet.build (icmpv4_type icmpv4_code : Nat)
    (icmpv4_ec_id icmpv4_ec_seq : Nat)
    (icmpv4_ec_raw_data icmpv4_un_raw_data : List Nat)
    (echo_tracker : Option Tracker) : Icmp4Packet :=
  let base : Icmp4Packet :=
    { tracker := Tracker.mk "TX" echo_tracker
      icmpv4_type := icmpv4_type
      icmpv4_code := icmpv4_code
      icmpv4_cksum := 0 }
  if icmpv4_type = 0 ∧ icmpv4_code = 0 then
    { base with icmpv4_ec_id := some icmpv4_ec_id
                icmpv4_ec_seq := some icmpv4_ec_seq
                icmpv4_ec_raw_data := some icmpv4_ec_raw_data }
  else if icmpv4_type = 3 ∧ icmpv4_code = 3 then
    { base with icmpv4_un_reserved := some 0
                icmpv4_un_raw_data := some (icmpv4_un_raw_data.take 520) }
  else if icmpv4_type = 8 ∧ icmpv4_code = 0 then
    { base with icmpv4_ec_id := some icmpv4_ec_id
                icmpv4_ec_seq := some icmpv4_ec_seq
                icmpv4_ec_raw_data := some icmpv4_ec_raw_data }
  else base

/-- `Icmp4Packet.raw_packet`: render by type ((3, 3) for the Destination
Unreachable layout, any other type-3 code falls through to the unknown
branch, exactly as in the source); reading a body attribute that was never
assigned raises (`none`). -/
def Icmp4Packet.raw_packet (p : Icmp4Packet) : Option (List Nat) :=
  if p.icmpv4_type = 0 then do
    let ec_id ← p.icmpv4_ec_id
    let ec_seq ← p.icmpv4_ec_seq
    let d ← p.icmpv4_ec_raw_data
    some (packB p.icmpv4_type ++ packB p.icmpv4_code ++ pack16 p.icmpv4_cksum ++
      pack16 ec_id ++ pack16 ec_seq ++ d)
  else if p.icmpv4_type = 3 ∧ p.icmpv4_code = 3 then do
    let un_reserved ← p.icmpv4_un_reserved
    let d ← p.icmpv4_un_raw_data
    some (packB p.icmpv4_type ++ packB p.icmpv4_code ++ pack16 p.icmpv4_cksum ++
      pack32 un_reserved ++ d)
  else if p.icmpv4_type = 8 then do
    let ec_id ← p.icmpv4_ec_id
    let ec_seq ← p.icmpv4_ec_seq
    let d ← p.icmpv4_ec_raw_data
    some (packB p.icmpv4_type ++ packB p.icmpv4_code ++ pack16 p.icmpv4_cksum ++
      pack16 ec_id ++ pack16 ec_seq ++ d)
  else do
    let u ← p.unknown_message
    some (packB p.icmpv4_type ++ packB p.icmpv4_code ++ pack16 p.icmpv4_cksum ++ u)

/-- `Icmp4Packet.get_raw_packet`: store the checksum of the current raw
rendering (the method mutates `self.icmpv4_cksum`), then render again; the
result pairs the mutated packet with the rendered bytes. -/
def Icmp4Packet.get_raw_packet (p : Icmp4Packet) :
    Option (Icmp4Packet × List Nat) := do
  let rp ← p.raw_packet
  let p' := { p with icmpv4_cksum := InetCksum.compute_cksum rp }
  let out ← p'.raw_packet
  some (p', out)

/-- Claim C1: the claim states that parsing an inbound ICMPv4 Destination
Unreachable message (type 3) of at least 8 bytes succeeds, with the
reserved field read as the four big-endian bytes at offsets 4..8 and the
quoted data as the bytes from offset 8.  The source instead feeds the
two-byte slice `raw_packet[4:6]` to `struct.unpack("!L", ...)`, which
demands exactly four bytes, so parsing such a message always raises
`struct.error`: here, the parse of the 8-byte type-3/code-3 message
`03 03 00 00 00 00 00 00` fails. -/
theorem icmp4_parse_unreachable_raises :
    Icmp4Packet.parse (Tracker.mk "RX" none) [3, 3, 0, 0, 0, 0, 0, 0] = none := rfl

/-- Claim C3: the codec round trip `serialize(parse(b)) = b` is claimed for
every well-formed buffer of a recognized shape, including ICMPv4
Destination Unreachable.  It fails on that shape: parsing the well-formed
10-byte type-3 message `03 01 aa bb 00 00 00 00 01 02` raises
`struct.error` (the `"!L"` unpack of the two-byte slice `raw_packet[4:6]`),
so there is no parsed packet to serialize. -/
theorem icmp4_roundtrip_unreachable_fails :
    Icmp4Packet.parse (Tracker.mk "RX" none) [3, 1, 170, 187, 0, 0, 0, 0, 1, 2] = none := rfl

/-- Claim C5: a UDP packet built from explicit fields has
`udp_len = 8 + len(raw_data)`, and in its serialized form the length field
covers the header plus the payload, i.e. it equals the total length of the
serialized packet. -/
theorem udp_build_length_field (udp_sport udp_dport : Nat) (raw_data : List Nat)
    (echo_tracker : Option Tracker) :
    (UdpPacket.build udp_sport udp_dport raw_data echo_tracker).udp_len
        = 8 + raw_data.length ∧
    (UdpPacket.build udp_sport udp_dport raw_data echo_tracker).udp_len
        = (UdpPacket.build udp_sport udp_dport raw_data echo_tracker).raw_packet.length := by
  refine ⟨rfl, ?_⟩
  simp [UdpPacket.build, UdpPacket.raw_packet, UdpPacket.raw_header, pack16]
  omega

/-- Claim C6: an ICMPv4 Destination Unreachable message built for emission
(type 3, code 3) stores, and serializes, as its data field the first at
most 520 bytes of the supplied offending datagram, whatever its length:
the stored and rendered data is `take 520` of the input, its length is at
most 520, and it extends to the input by appending the dropped tail. -/
theorem icmp4_unreachable_truncation (icmpv4_ec_id icmpv4_ec_seq : Nat)
    (ec_data un_data : List Nat) (echo_tracker : Option Tracker) :
    (Icmp4Packet.build 3 3 icmpv4_ec_id icmpv4_ec_seq ec_data un_data
        echo_tracker).icmpv4_un_raw_data = some (un_data.take 520) ∧
    (Icmp4Packet.build 3 3 icmpv4_ec_id icmpv4_ec_seq ec_data un_data
        echo_tracker).raw_packet = some ([3, 3, 0, 0, 0, 0, 0, 0] ++ un_data.take 520) ∧
    (un_data.take 520).length ≤ 520 ∧
    un_data.take 520 ++ un_data.drop 520 = un_data := by
  refine ⟨rfl, ?_, ?_, List.take_append_drop 520 un_data⟩
  · simp [Icmp4Packet.build, Icmp4Packet.raw_packet, packB, pack16, pack32]
  · simp [List.length_take]

/-- Claim C10: parsing a UDP packet from any buffer of at least 8 bytes
never raises: it yields the four big-endian header fields and takes the
payload as the bytes in the half-open range from offset 8 up to the value
of the length field, so trailing bytes beyond the length field are
excluded and a length field beyond the end of the buffer is silently
clamped to the bytes present. -/
theorem udp_parse_total (tr : Tracker) (ph : List Nat)
    (b0 b1 b2 b3 b4 b5 b6 b7 : Nat) (rest : List Nat) :
    UdpPacket.parse tr ph (b0 :: b1 :: b2 :: b3 :: b4 :: b5 :: b6 :: b7 :: rest) =
      some
        { tracker := tr
          ip_pseudo_header := some ph
          udp_sport := 256 * b0 + b1
          udp_dport := 256 * b2 + b3
          udp_len := 256 * b4 + b5
          udp_cksum := 256 * b6 + b7
          raw_data := rest.take (256 * b4 + b5 - 8) } := rfl

/-- Inversion for a successful `Option` bind. -/
theorem optionBind_eq_some {α β : Type} {x : Option α} {f : α → Option β} {b : β}
    (h : x.bind f = some b) : ∃ a, x = some a ∧ f a = some b := by
  cases x with
  | none => cases h
  | some a => exact ⟨a, rfl, h⟩

/-- Claim C8: every packet constructed on the build path (no parent packet)
carries a fresh `TX` tracker whose back-link is the supplied
`echo_tracker`; every packet constructed on the parse path carries exactly
the parent packet's tracker. -/
theorem packet_tracker_provenance (udp_sport udp_dport : Nat) (raw_data : List Nat)
    (echo_tracker : Option Tracker) (t c i s : Nat) (ec_data un_data : List Nat)
    (tr : Tracker) (ph bufU bufI : List Nat) :
    (UdpPacket.build udp_sport udp_dport raw_data echo_tracker).tracker
        = Tracker.mk "TX" echo_tracker ∧
    (Icmp4Packet.build t c i s ec_data un_data echo_tracker).tracker
        = Tracker.mk "TX" echo_tracker ∧
    (∀ p, UdpPacket.parse tr ph bufU = some p → p.tracker = tr) ∧
    (∀ q, Icmp4Packet.parse tr bufI = some q → q.tracker = tr) := by
  refine ⟨rfl, ?_, ?_, ?_⟩
  · unfold Icmp4Packet.build
    split_ifs <;> rfl
  · intro p hp
    unfold UdpPacket.parse at hp
    obtain ⟨l, -, hp⟩ := optionBind_eq_some hp
    obtain ⟨sp, -, hp⟩ := optionBind_eq_some hp
    obtain ⟨dp, -, hp⟩ := optionBind_eq_some hp
    obtain ⟨ck, -, hp⟩ := optionBind_eq_some hp
    cases hp
    rfl
  · intro q hq
    unfold Icmp4Packet.parse at hq
    obtain ⟨ty, -, hq⟩ := optionBind_eq_some hq
    obtain ⟨cd, -, hq⟩ := optionBind_eq_some hq
    obtain ⟨ck, -, hq⟩ := optionBind_eq_some hq
    split_ifs at hq
    · obtain ⟨a, -, hq⟩ := optionBind_eq_some hq
      obtain ⟨b, -, hq⟩ := optionBind_eq_some hq
      cases hq
      rfl
    · obtain ⟨a, -, hq⟩ := optionBind_eq_some hq
      cases hq
      rfl
    · obtain ⟨a, -, hq⟩ := optionBind_eq_some hq
      obtain ⟨b, -, hq⟩ := optionBind_eq_some hq
      cases hq
      rfl
    · cases hq
      rfl

/-- Witness for `packet_tracker_provenance` at a concrete build and a
concrete successfully parsed buffer. -/
theorem packet_tracker_provenance_witness :
    (UdpPacket.build 1 2 [] none).tracker = Tracker.mk "TX" none ∧
    (UdpPacket.parse (Tracker.mk "RX" none) [] [0, 0, 0, 0, 0, 8, 0, 0]).map
        UdpPacket.tracker = some (Tracker.mk "RX" none) := by
  have h := packet_tracker_provenance 1 2 [] none 0 0 0 0 [] []
    (Tracker.mk "RX" none) [] [0, 0, 0, 0, 0, 8, 0, 0] []
  refine ⟨h.1, ?_⟩
  have hq : UdpPacket.parse (Tracker.mk "RX" none) [] [0, 0, 0, 0, 0, 8, 0, 0]
      = some { tracker := Tracker.mk "RX" none, ip_pseudo_header := some [],
               udp_sport := 0, udp_dport := 0, udp_len := 8, udp_cksum := 0,
               raw_data := [] } := rfl
  have ht := h.2.2.1 _ hq
  rw [hq]
  exact congrArg some ht

/-- Claim C9: an ICMPv4 packet constructed on the build path with a
(type, code) combination outside echo reply (0, 0), port unreachable
(3, 3) and echo request (8, 0) cannot be emitted: the constructor assigns
no message body attribute on that path — in particular not
`unknown_message` — so both `raw_packet` and `get_raw_packet` raise
(`AttributeError`), modelled as `none`. -/
theorem icmp4_build_unknown_unserializable (t c i s : Nat)
    (ec_data un_data : List Nat) (echo_tracker : Option Tracker)
    (h : ¬((t = 0 ∧ c = 0) ∨ (t = 3 ∧ c = 3) ∨ (t = 8 ∧ c = 0))) :
    (Icmp4Packet.build t c i s ec_data un_data echo_tracker).raw_packet = none ∧
    (Icmp4Packet.build t c i s ec_data un_data echo_tracker).get_raw_packet = none := by
  have hb : Icmp4Packet.build t c i s ec_data un_data echo_tracker =
      { tracker := Tracker.mk "TX" echo_tracker, icmpv4_type := t,
        icmpv4_code := c, icmpv4_cksum := 0 } := by
    unfold Icmp4Packet.build
    split_ifs with h1 h2 h3
    · exact absurd (Or.inl h1) h
    · exact absurd (Or.inr (Or.inl h2)) h
    · exact absurd (Or.inr (Or.inr h3)) h
    · rfl
  have hraw : (Icmp4Packet.build t c i s ec_data un_data echo_tracker).raw_packet
      = none := by
    rw [hb]
    unfold Icmp4Packet.raw_packet
    split_ifs <;> rfl
  refine ⟨hraw, ?_⟩
  unfold Icmp4Packet.get_raw_packet
  rw [hraw]
  rfl

/-- Witness for `icmp4_build_unknown_unserializable` at type 5, code 0. -/
theorem icmp4_build_unknown_unserializable_witness :
    ¬((5 = 0 ∧ 0 = 0) ∨ (5 = 3 ∧ 0 = 3) ∨ (5 = 8 ∧ 0 = 0)) ∧
    (Icmp4Packet.build 5 0 0 0 [] [] none).raw_packet = none ∧
    (Icmp4Packet.build 5 0 0 0 [] [] none).get_raw_packet = none :=
  ⟨by decide, icmp4_build_unknown_unserializable 5 0 0 0 [] [] none (by decide)⟩

/-- The 16-bit big-endian word sum of pseudo-header plus rendered packet,
zero-padded to an even length: the quantity whose carries the checksum
routines fold. -/
def udpPseudoSum (p : UdpPacket) (ph : List Nat) : Nat :=
  (wordsOf (padTo2 (ph ++ p.raw_packet))).sum

/-- The checksum value the spec describes, written from the spec's words:
fold-once one's-complement of the IPv4 pseudo-header, the UDP header with
the checksum field zeroed, and the payload zero-padded to an even byte
count.  Compared below against what `compute_cksum` computes. -/
def udpCksumSpec (ph : List Nat) (sport dport len : Nat) (payload : List Nat) : Nat :=
  foldOnceCompl (wordsOf (ph ++ pack16 sport ++ pack16 dport ++ pack16 len ++
    pack16 0 ++ padTo2 payload)).sum

/-- Evaluation of `compute_cksum` on an arbitrary packet and an arbitrary
12-byte pseudo-header: the checks pass and the zeroed list index 9 is the
checksum word of the UDP header. -/
theorem udp_compute_cksum_eval (tr : Tracker) (iph : Option (List Nat))
    (sport dport len ck : Nat) (data : List Nat)
    (p0 p1 p2 p3 p4 p5 p6 p7 p8 p9 p10 p11 : Nat) :
    UdpPacket.compute_cksum ⟨tr, iph, sport, dport, len, ck, data⟩
      [p0, p1, p2, p3, p4, p5, p6, p7, p8, p9, p10, p11] =
    some (foldOnceCompl
      ((256 * p0 + p1) + (256 * p2 + p3) + (256 * p4 + p5) + (256 * p6 + p7) +
        (256 * p8 + p9) + (256 * p10 + p11) +
        (256 * (sport / 256 % 256) + sport % 256) +
        (256 * (dport / 256 % 256) + dport % 256) +
        (256 * (len / 256 % 256) + len % 256) +
        (wordsOf (padTo2 data)).sum)) := by
  by_cases hodd : data.length % 2 = 1
  all_goals
    simp only [UdpPacket.compute_cksum, UdpPacket.raw_packet, UdpPacket.raw_header,
      pack16, padTo2, hodd, if_true, if_false, List.cons_append, List.nil_append,
      List.append_nil, List.length_cons, List.length_append, List.length_nil]
  all_goals split_ifs
  all_goals
    try simp only [List.length_cons, List.length_nil, List.length_append,
      List.append_nil] at *
  all_goals
    first
    | (exfalso; omega)
    | (exfalso; simp only [wordsOf, List.length_cons, List.length_nil,
        List.append_nil] at *; omega)
    | (simp only [wordsOf, List.set, List.sum_cons, List.append_nil];
       congr 1; congr 1; omega)

/-- Evaluation of `udpPseudoSum` on an arbitrary packet and 12-byte
pseudo-header. -/
theorem udpPseudoSum_eval (tr : Tracker) (iph : Option (List Nat))
    (sport dport len ck : Nat) (data : List Nat)
    (p0 p1 p2 p3 p4 p5 p6 p7 p8 p9 p10 p11 : Nat) :
    udpPseudoSum ⟨tr, iph, sport, dport, len, ck, data⟩
      [p0, p1, p2, p3, p4, p5, p6, p7, p8, p9, p10, p11] =
    (256 * p0 + p1) + (256 * p2 + p3) + (256 * p4 + p5) + (256 * p6 + p7) +
      (256 * p8 + p9) + (256 * p10 + p11) +
      (256 * (sport / 256 % 256) + sport % 256) +
      (256 * (dport / 256 % 256) + dport % 256) +
      (256 * (len / 256 % 256) + len % 256) +
      (256 * (ck / 256 % 256) + ck % 256) +
      (wordsOf (padTo2 data)).sum := by
  by_cases hodd : data.length % 2 = 1
  all_goals
    simp only [udpPseudoSum, UdpPacket.raw_packet, UdpPacket.raw_header,
      pack16, padTo2, hodd, if_true, if_false, List.cons_append, List.nil_append,
      List.append_nil, List.length_cons, List.length_append, List.length_nil]
  all_goals split_ifs
  all_goals
    try simp only [List.length_cons, List.length_nil, List.length_append,
      List.append_nil] at *
  all_goals
    first
    | (exfalso; omega)
    | (simp only [wordsOf, List.sum_cons, List.append_nil]; omega)

/-- Evaluation of `udpCksumSpec` on an arbitrary 12-byte pseudo-header. -/
theorem udpCksumSpec_eval (sport dport len : Nat) (data : List Nat)
    (p0 p1 p2 p3 p4 p5 p6 p7 p8 p9 p10 p11 : Nat) :
    udpCksumSpec [p0, p1, p2, p3, p4, p5, p6, p7, p8, p9, p10, p11]
      sport dport len data =
    foldOnceCompl
      ((256 * p0 + p1) + (256 * p2 + p3) + (256 * p4 + p5) + (256 * p6 + p7) +
        (256 * p8 + p9) + (256 * p10 + p11) +
        (256 * (sport / 256 % 256) + sport % 256) +
        (256 * (dport / 256 % 256) + dport % 256) +
        (256 * (len / 256 % 256) + len % 256) +
        (wordsOf (padTo2 data)).sum) := by
  by_cases hodd : data.length % 2 = 1
  all_goals
    simp only [udpCksumSpec, pack16, padTo2, hodd, if_true, if_false,
      List.cons_append, List.nil_append, List.append_nil, List.length_cons,
      List.length_append, List.length_nil]
  all_goals
    simp only [wordsOf, List.sum_cons, List.append_nil]
  all_goals (congr 1; omega)

/-- `compute_cksum` computes the fold-once complement of the word sum of
pseudo-header plus packet with the checksum field zeroed; in particular the
stored checksum value plays no part. -/
theorem udp_compute_cksum_eq (tr : Tracker) (iph : Option (List Nat))
    (sport dport len ck : Nat) (data : List Nat)
    (p0 p1 p2 p3 p4 p5 p6 p7 p8 p9 p10 p11 : Nat) :
    UdpPacket.compute_cksum ⟨tr, iph, sport, dport, len, ck, data⟩
      [p0, p1, p2, p3, p4, p5, p6, p7, p8, p9, p10, p11] =
    some (foldOnceCompl (udpPseudoSum ⟨tr, iph, sport, dport, len, 0, data⟩
      [p0, p1, p2, p3, p4, p5, p6, p7, p8, p9, p10, p11])) := by
  rw [udp_compute_cksum_eval, udpPseudoSum_eval]
  congr 2

/-- The fold-once complement fits in 16 bits. -/
theorem foldOnceCompl_le (s : Nat) : foldOnceCompl s ≤ 65535 := by
  unfold foldOnceCompl
  omega

/-- A positive multiple of `0xFFFF` fully folds to `0xFFFF`, the
one's-complement negative zero. -/
theorem onesCompFold_65535_mul (k : Nat) (hk : 1 ≤ k) :
    onesCompFold (65535 * k) = 65535 := by
  induction k using Nat.strong_induction_on with
  | _ k ih =>
    by_cases h : 65535 * k < 65536
    · have hk1 : k = 1 := by omega
      subst hk1
      unfold onesCompFold
      norm_num
    · have hq1 : 1 ≤ 65535 * k / 65536 := by omega
      have hqk : 65535 * k / 65536 < k := by omega
      have harg : 65535 * k % 65536 + 65535 * k / 65536
          = 65535 * (k - 65535 * k / 65536) := by omega
      rw [onesCompFold, dif_neg h, harg]
      exact ih _ (by omega) (by omega)

/-- Claim C7: the result of `compute_cksum` with a 12-byte pseudo-header
does not depend on the value currently stored in the packet's checksum
field (its word is zeroed before summing), and therefore serializing the
same packet twice through `get_raw_packet` with the same pseudo-header is
idempotent: the second pass recomputes the same checksum and returns the
same packet and the same bytes. -/
theorem udp_cksum_ck_independent (tr : Tracker) (iph : Option (List Nat))
    (sport dport len ck ck' : Nat) (data : List Nat)
    (p0 p1 p2 p3 p4 p5 p6 p7 p8 p9 p10 p11 : Nat) :
    UdpPacket.compute_cksum ⟨tr, iph, sport, dport, len, ck, data⟩
        [p0, p1, p2, p3, p4, p5, p6, p7, p8, p9, p10, p11] =
      UdpPacket.compute_cksum ⟨tr, iph, sport, dport, len, ck', data⟩
        [p0, p1, p2, p3, p4, p5, p6, p7, p8, p9, p10, p11] ∧
    (UdpPacket.get_raw_packet ⟨tr, iph, sport, dport, len, ck, data⟩
        [p0, p1, p2, p3, p4, p5, p6, p7, p8, p9, p10, p11]).bind
        (fun pr => pr.1.get_raw_packet [p0, p1, p2, p3, p4, p5, p6, p7, p8, p9, p10, p11]) =
      UdpPacket.get_raw_packet ⟨tr, iph, sport, dport, len, ck, data⟩
        [p0, p1, p2, p3, p4, p5, p6, p7, p8, p9, p10, p11] := by
  have hg : ∀ c : Nat,
      UdpPacket.get_raw_packet ⟨tr, iph, sport, dport, len, c, data⟩
        [p0, p1, p2, p3, p4, p5, p6, p7, p8, p9, p10, p11] =
      some (⟨tr, iph, sport, dport, len,
          foldOnceCompl (udpPseudoSum ⟨tr, iph, sport, dport, len, 0, data⟩
            [p0, p1, p2, p3, p4, p5, p6, p7, p8, p9, p10, p11]), data⟩,
        UdpPacket.raw_packet ⟨tr, iph, sport, dport, len,
          foldOnceCompl (udpPseudoSum ⟨tr, iph, sport, dport, len, 0, data⟩
            [p0, p1, p2, p3, p4, p5, p6, p7, p8, p9, p10, p11]), data⟩) := by
    intro c
    unfold UdpPacket.get_raw_packet
    rw [udp_compute_cksum_eq tr iph sport dport len c data
      p0 p1 p2 p3 p4 p5 p6 p7 p8 p9 p10 p11]
    rfl
  refine ⟨(udp_compute_cksum_eq tr iph sport dport len ck data
      p0 p1 p2 p3 p4 p5 p6 p7 p8 p9 p10 p11).trans
      (udp_compute_cksum_eq tr iph sport dport len ck' data
      p0 p1 p2 p3 p4 p5 p6 p7 p8 p9 p10 p11).symm, ?_⟩
  rw [hg ck]
  exact hg (foldOnceCompl (udpPseudoSum ⟨tr, iph, sport, dport, len, 0, data⟩
    [p0, p1, p2, p3, p4, p5, p6, p7, p8, p9, p10, p11]))

/-- Evaluation of `get_raw_packet`: it stores the fold-once complement of
the zero-checksum word sum and renders the packet with it. -/
theorem udp_get_raw_packet_eval (tr : Tracker) (iph : Option (List Nat))
    (sport dport len ck : Nat) (data : List Nat)
    (p0 p1 p2 p3 p4 p5 p6 p7 p8 p9 p10 p11 : Nat) :
    UdpPacket.get_raw_packet ⟨tr, iph, sport, dport, len, ck, data⟩
      [p0, p1, p2, p3, p4, p5, p6, p7, p8, p9, p10, p11] =
    some (⟨tr, iph, sport, dport, len,
        foldOnceCompl (udpPseudoSum ⟨tr, iph, sport, dport, len, 0, data⟩
          [p0, p1, p2, p3, p4, p5, p6, p7, p8, p9, p10, p11]), data⟩,
      UdpPacket.raw_packet ⟨tr, iph, sport, dport, len,
        foldOnceCompl (udpPseudoSum ⟨tr, iph, sport, dport, len, 0, data⟩
          [p0, p1, p2, p3, p4, p5, p6, p7, p8, p9, p10, p11]), data⟩) := by
  unfold UdpPacket.get_raw_packet
  rw [udp_compute_cksum_eq tr iph sport dport len ck data
    p0 p1 p2 p3 p4 p5 p6 p7 p8 p9 p10 p11]
  rfl

/-- Claim C2, amended: serializing a built UDP packet via `get_raw_packet`
with an IPv4 pseudo-header populates the checksum field with the fold-once
one's-complement covering the pseudo-header, the UDP header with the
checksum field zeroed, and the payload zero-padded to an even byte count
(`udpCksumSpec`, written from the spec's words); the computed value is
stored and transmitted as is — a computed checksum of zero is transmitted
as `0x0000`, not `0xFFFF` (see the counterexample
`udp_zero_cksum_transmitted_as_zero`). -/
theorem udp_cksum_coverage (sport dport : Nat) (data : List Nat)
    (et : Option Tracker) (p0 p1 p2 p3 p4 p5 p6 p7 p8 p9 p10 p11 : Nat)
    (hs : sport < 65536) (hd : dport < 65536) (hl : 8 + data.length < 65536) :
    UdpPacket.get_raw_packet (UdpPacket.build sport dport data et)
      [p0, p1, p2, p3, p4, p5, p6, p7, p8, p9, p10, p11] =
    some (⟨Tracker.mk "TX" et, none, sport, dport, 8 + data.length,
        udpCksumSpec [p0, p1, p2, p3, p4, p5, p6, p7, p8, p9, p10, p11] sport dport
          (8 + data.length) data, data⟩,
      pack16 sport ++ pack16 dport ++ pack16 (8 + data.length) ++
        pack16 (udpCksumSpec [p0, p1, p2, p3, p4, p5, p6, p7, p8, p9, p10, p11] sport dport
          (8 + data.length) data) ++ data) := by
  have hspec : udpCksumSpec [p0, p1, p2, p3, p4, p5, p6, p7, p8, p9, p10, p11] sport dport
      (8 + data.length) data =
      foldOnceCompl (udpPseudoSum ⟨Tracker.mk "TX" et, none, sport, dport, 8 + data.length, 0, data⟩
        [p0, p1, p2, p3, p4, p5, p6, p7, p8, p9, p10, p11]) := by
    rw [udpCksumSpec_eval, udpPseudoSum_eval]
    congr 1
  rw [show UdpPacket.build sport dport data et =
    ⟨Tracker.mk "TX" et, none, sport, dport, 8 + data.length, 0, data⟩ from rfl]
  rw [udp_get_raw_packet_eval, hspec]
  rfl

/-- Claim C4, amended: for a built UDP packet whose checksum was populated
by `get_raw_packet` with a 12-byte IPv4 pseudo-header, the 16-bit
one's-complement sum over pseudo-header plus serialized packet (zero-padded
to an even length) is zero — provided folding the carries in once already
lands below `2^16`, which is the hypothesis the code's single fold needs.
The computation folds carries back in once and takes the one's-complement;
when the single fold itself still carries, the emitted checksum is wrong
and the sum is not zero (see `udp_zero_sum_counterexample`). -/
theorem udp_cksum_zero_sum (sport dport : Nat) (data : List Nat)
    (et : Option Tracker) (p0 p1 p2 p3 p4 p5 p6 p7 p8 p9 p10 p11 : Nat)
    (hfold : udpPseudoSum (UdpPacket.build sport dport data et)
        [p0, p1, p2, p3, p4, p5, p6, p7, p8, p9, p10, p11] % 65536 +
      udpPseudoSum (UdpPacket.build sport dport data et)
        [p0, p1, p2, p3, p4, p5, p6, p7, p8, p9, p10, p11] / 65536 < 65536) :
    ((UdpPacket.build sport dport data et).get_raw_packet
        [p0, p1, p2, p3, p4, p5, p6, p7, p8, p9, p10, p11]).map Prod.snd ≠ none ∧
    inetCksumOf ([p0, p1, p2, p3, p4, p5, p6, p7, p8, p9, p10, p11] ++
      (((UdpPacket.build sport dport data et).get_raw_packet
        [p0, p1, p2, p3, p4, p5, p6, p7, p8, p9, p10, p11]).map Prod.snd).getD []) = 0 := by
  rw [show UdpPacket.build sport dport data et = ⟨Tracker.mk "TX" et, none, sport, dport, 8 + data.length, 0, data⟩ from rfl] at hfold ⊢
  rw [udp_get_raw_packet_eval]
  refine ⟨by simp, ?_⟩
  simp only [Option.map_some', Option.getD_some]
  have hkey : inetCksumOf ([p0, p1, p2, p3, p4, p5, p6, p7, p8, p9, p10, p11] ++
      UdpPacket.raw_packet ⟨Tracker.mk "TX" et, none, sport, dport, 8 + data.length, foldOnceCompl (udpPseudoSum ⟨Tracker.mk "TX" et, none, sport, dport, 8 + data.length, 0, data⟩ [p0, p1, p2, p3, p4, p5, p6, p7, p8, p9, p10, p11]), data⟩) =
      65535 - onesCompFold (udpPseudoSum ⟨Tracker.mk "TX" et, none, sport, dport, 8 + data.length, foldOnceCompl (udpPseudoSum ⟨Tracker.mk "TX" et, none, sport, dport, 8 + data.length, 0, data⟩ [p0, p1, p2, p3, p4, p5, p6, p7, p8, p9, p10, p11]), data⟩ [p0, p1, p2, p3, p4, p5, p6, p7, p8, p9, p10, p11]) := rfl
  rw [hkey]
  have hCle : foldOnceCompl (udpPseudoSum ⟨Tracker.mk "TX" et, none, sport, dport, 8 + data.length, 0, data⟩ [p0, p1, p2, p3, p4, p5, p6, p7, p8, p9, p10, p11]) ≤ 65535 := foldOnceCompl_le _
  have hsum : ∀ c : Nat, c ≤ 65535 →
      udpPseudoSum ⟨Tracker.mk "TX" et, none, sport, dport, 8 + data.length,
        c, data⟩ [p0, p1, p2, p3, p4, p5, p6, p7, p8, p9, p10, p11] =
      udpPseudoSum ⟨Tracker.mk "TX" et, none, sport, dport, 8 + data.length, 0, data⟩ [p0, p1, p2, p3, p4, p5, p6, p7, p8, p9, p10, p11] + c := by
    intro c hc
    rw [udpPseudoSum_eval, udpPseudoSum_eval]
    omega
  rw [hsum _ hCle]
  have hCval : foldOnceCompl (udpPseudoSum ⟨Tracker.mk "TX" et, none, sport, dport, 8 + data.length, 0, data⟩ [p0, p1, p2, p3, p4, p5, p6, p7, p8, p9, p10, p11]) =
      65535 - ((udpPseudoSum ⟨Tracker.mk "TX" et, none, sport, dport, 8 + data.length, 0, data⟩ [p0, p1, p2, p3, p4, p5, p6, p7, p8, p9, p10, p11] % 65536 +
        udpPseudoSum ⟨Tracker.mk "TX" et, none, sport, dport, 8 + data.length, 0, data⟩ [p0, p1, p2, p3, p4, p5, p6, p7, p8, p9, p10, p11] / 65536) % 65536) := rfl
  rw [hCval]
  have harg : udpPseudoSum ⟨Tracker.mk "TX" et, none, sport, dport, 8 + data.length, 0, data⟩ [p0, p1, p2, p3, p4, p5, p6, p7, p8, p9, p10, p11] +
      (65535 - ((udpPseudoSum ⟨Tracker.mk "TX" et, none, sport, dport, 8 + data.length, 0, data⟩ [p0, p1, p2, p3, p4, p5, p6, p7, p8, p9, p10, p11] % 65536 +
        udpPseudoSum ⟨Tracker.mk "TX" et, none, sport, dport, 8 + data.length, 0, data⟩ [p0, p1, p2, p3, p4, p5, p6, p7, p8, p9, p10, p11] / 65536) % 65536)) =
      65535 * (udpPseudoSum ⟨Tracker.mk "TX" et, none, sport, dport, 8 + data.length, 0, data⟩ [p0, p1, p2, p3, p4, p5, p6, p7, p8, p9, p10, p11] / 65536 + 1) := by
    omega
  rw [harg, onesCompFold_65535_mul _ (by omega)]

/-- Counterexample to claim C2 as stated: for the UDP packet built from
sport 0, dport 0, empty payload and the pseudo-header
`255.222.0.0 → 0.0.0.0`, proto 17, length 8, the computed checksum is zero,
yet the transmitted checksum field holds `0x0000` (bytes 6 and 7 of the
output), not `0xFFFF`: the code never maps a computed zero to `0xFFFF`. -/
theorem udp_zero_cksum_transmitted_as_zero :
    UdpPacket.compute_cksum (UdpPacket.build 0 0 [] none)
        [255, 222, 0, 0, 0, 0, 0, 0, 0, 17, 0, 8] = some 0 ∧
    (UdpPacket.get_raw_packet (UdpPacket.build 0 0 [] none)
        [255, 222, 0, 0, 0, 0, 0, 0, 0, 17, 0, 8]).map Prod.snd
      = some [0, 0, 0, 0, 0, 8, 0, 0] := ⟨rfl, rfl⟩

/-- Counterexample to claim C4 as stated: for the UDP packet built from
sport 0, dport 0, empty payload and the pseudo-header
`255.255.255.223 → 0.0.0.0`, proto 17, length 8, the word sum with zeroed
checksum is `0x1FFFF`, whose single fold is `0x10000`; the emitted checksum
is `0xFFFF` and the fully folded one's-complement sum over pseudo-header
plus serialized packet is `1`, not zero (its complement is `0xFFFE`). -/
theorem udp_zero_sum_counterexample :
    (UdpPacket.get_raw_packet (UdpPacket.build 0 0 [] none)
        [255, 255, 255, 223, 0, 0, 0, 0, 0, 17, 0, 8]).map Prod.snd
      = some [0, 0, 0, 0, 0, 8, 255, 255] ∧
    inetCksumOf ([255, 255, 255, 223, 0, 0, 0, 0, 0, 17, 0, 8] ++
        [0, 0, 0, 0, 0, 8, 255, 255]) = 65534 := by
  refine ⟨rfl, ?_⟩
  have h1 : (wordsOf (padTo2 ([255, 255, 255, 223, 0, 0, 0, 0, 0, 17, 0, 8] ++
      [0, 0, 0, 0, 0, 8, 255, 255]))).sum = 196606 := rfl
  have h2 : onesCompFold 196606 = 1 := by
    rw [onesCompFold, dif_neg (by norm_num)]
    norm_num
    rw [onesCompFold, dif_neg (by norm_num)]
    norm_num
    rw [onesCompFold, dif_pos (by norm_num)]
  rw [inetCksumOf, h1, h2]

/-- Witness for `udp_cksum_coverage` at a concrete DNS-style datagram. -/
theorem udp_cksum_coverage_witness :
    (53 : Nat) < 65536 ∧ (68 : Nat) < 65536 ∧ 8 + ([1] : List Nat).length < 65536 ∧
    UdpPacket.get_raw_packet (UdpPacket.build 53 68 [1] none)
      [192, 168, 9, 7, 192, 168, 9, 1, 0, 17, 0, 9] =
    some (⟨Tracker.mk "TX" none, none, 53, 68, 8 + ([1] : List Nat).length,
        udpCksumSpec [192, 168, 9, 7, 192, 168, 9, 1, 0, 17, 0, 9] 53 68
          (8 + ([1] : List Nat).length) [1], [1]⟩,
      pack16 53 ++ pack16 68 ++ pack16 (8 + ([1] : List Nat).length) ++
        pack16 (udpCksumSpec [192, 168, 9, 7, 192, 168, 9, 1, 0, 17, 0, 9] 53 68
          (8 + ([1] : List Nat).length) [1]) ++ [1]) :=
  ⟨by decide, by decide, by decide,
    udp_cksum_coverage 53 68 [1] none 192 168 9 7 192 168 9 1 0 17 0 9
      (by decide) (by decide) (by decide)⟩

/-- Witness for `udp_cksum_zero_sum` at a concrete echo-style datagram with
an all-zero pseudo-header, where the single carry fold suffices. -/
theorem udp_cksum_zero_sum_witness :
    (udpPseudoSum (UdpPacket.build 7 7 [] none)
        [0, 0, 0, 0, 0, 0, 0, 0, 0, 0, 0, 0] % 65536 +
      udpPseudoSum (UdpPacket.build 7 7 [] none)
        [0, 0, 0, 0, 0, 0, 0, 0, 0, 0, 0, 0] / 65536 < 65536) ∧
    (((UdpPacket.build 7 7 [] none).get_raw_packet
        [0, 0, 0, 0, 0, 0, 0, 0, 0, 0, 0, 0]).map Prod.snd ≠ none ∧
    inetCksumOf ([0, 0, 0, 0, 0, 0, 0, 0, 0, 0, 0, 0] ++
      (((UdpPacket.build 7 7 [] none).get_raw_packet
        [0, 0, 0, 0, 0, 0, 0, 0, 0, 0, 0, 0]).map Prod.snd).getD []) = 0) :=
  ⟨by decide, udp_cksum_zero_sum 7 7 [] none 0 0 0 0 0 0 0 0 0 0 0 0 (by decide)⟩
